import Mathlib

/-!
Verification development for the Cover Resolution Engine of
`MikhailShap/MyGameLauncher` (`src/game_manager.py`).

The Python source is shallowly embedded as executable Lean definitions:

* `cleanName` embeds `IconExtractor._clean_name` (lines 118-165), including
  the word-boundary semantics of the `re.sub(rf'\b{junk}\b', '', n, re.IGNORECASE)`
  passes, the non-greedy bracket and parenthesis span removal, the year-span
  removal, edge stripping and whitespace collapsing.  Strings are modelled at
  the ASCII level (`Char.toLower`, `Char.isAlphanum` agree with Python's
  `str.lower` / `\w` on ASCII input).
* `cachePath` embeds the cache-key derivation of `CoverAPIManager.get_cover`
  (lines 576-578).  The MD5 hex digest is abstracted as an explicit function
  parameter `md5hex`: every stated property is proved for an arbitrary digest
  function, so nothing depends on the internals of MD5.
* `getCoverTrace` embeds the 7-attempt fallback chain of
  `CoverAPIManager.get_cover` (lines 574-640), instrumented with the list of
  tiers whose body was actually entered (network side effects are oracles).
* `sgdbMakeRequest` / `rawgSearchGame` embed the client state machines of
  `SteamGridDBClient` (lines 297-396) and `RAWGClient` (lines 399-454),
  with the HTTP outcome supplied as an explicit value.
* `dispatchTime` embeds `_wait_rate_limit` (lines 308-313 and 410-415) under
  an idealised clock: `time.sleep(x)` advances the clock by exactly `x` and
  `time.time()` is monotone.
* `validateCacheFile` embeds `CoverValidator.validate_cache_file`
  (lines 464-483) over a file system modelled as `String → Option Nat`
  (path to byte size of an existing file).
* `cleanupOrphanedCache` embeds `CoverValidator.cleanup_orphaned_cache`
  (lines 485-526); the freshly-read `library.json` content and the cache
  directory listing are explicit inputs, `unlink` always succeeds.
-/

/-! ## Character helpers (Python `re` word characters, whitespace) -/

/-- Python `\w` on ASCII input: letters, digits and underscore. -/
def isWordChar (c : Char) : Bool := c.isAlphanum || c = '_'

/-- Python `\s` on ASCII input: space, tab, newline, carriage return,
vertical tab, form feed. -/
def isPySpace (c : Char) : Bool :=
  c = ' ' || c = '\t' || c = '\n' || c = '\r' || c = '\x0b' || c = '\x0c'

/-! ## `IconExtractor._clean_name` (src/game_manager.py lines 118-165)

Each junk pattern of the Python list is one `Junk` value; `subJunk` performs
one `re.sub(rf'\b{pat}\b', '', n, flags=re.IGNORECASE)` pass. -/

/-- The shapes of the patterns appearing in the `junk` list:
literal words and phrases, `v\d+(\.\d+)*[a-z]?`, `LIT\s*\d+`
(for `Build`, `Update`) and `LIT\d+` (for `Multi`). -/
inductive Junk where
  | lit (s : String)
  | vnum
  | wordNum (s : String)
  | litNum (s : String)
deriving DecidableEq

/-- Case-insensitive literal prefix match; `pat` is stored lowercase.
Returns the remainder after the literal. -/
def stripLitCI : List Char → List Char → Option (List Char)
  | [], s => some s
  | _ :: _, [] => none
  | p :: ps, c :: cs => if c.toLower = p then stripLitCI ps cs else none

/-- Trailing `\b` of a pattern that ends in a word character: the next
character (if any) must not be a word character. -/
def tailBoundary : List Char → Bool
  | [] => true
  | c :: _ => !isWordChar c

/-- Match of the tail of `v\d+(\.\d+)*[a-z]?\b` directly after a digit:
optional `[a-z]` (case-insensitive) and the closing word boundary. -/
def vnumEnd : List Char → Option (List Char)
  | [] => some []
  | c :: t =>
    if c.isAlpha then
      match t with
      | [] => some []
      | d :: _ => if !isWordChar d then some t else none
    else if !isWordChar c then some (c :: t) else none

/-- Greedy `(\.\d+)*` with regex backtracking, positioned after a digit:
if the continuation fails after consuming a group, the match ends right
before that group (the following `'.'` then satisfies `\b`).  Structural
recursion on fuel; every recursive step consumes at least two characters,
so `fuel ≥ length` always suffices and the fuel-zero fallback is dead. -/
def vnumTail : Nat → List Char → Option (List Char)
  | 0, s => vnumEnd s
  | fuel + 1, s =>
    match s with
    | '.' :: t =>
      let ds := t.takeWhile Char.isDigit
      if ds.isEmpty then vnumEnd s
      else
        match vnumTail fuel (t.drop ds.length) with
        | some r => some r
        | none => some s
    | _ => vnumEnd s

/-- Match `v\d+(\.\d+)*[a-z]?\b` at the head of `s` (the leading `\b`
is checked by the caller). -/
def matchVNum (s : List Char) : Option (List Char) :=
  match s with
  | [] => none
  | c :: rest =>
    if c.toLower = 'v' then
      let ds := rest.takeWhile Char.isDigit
      if ds.isEmpty then none
      else vnumTail (rest.drop ds.length).length (rest.drop ds.length)
    else none

/-- Match `LIT\s*\d+\b` at the head of `s` (used by `Build\s*\d+`,
`Update\s*\d+`). -/
def matchWordNum (pat : String) (s : List Char) : Option (List Char) :=
  match stripLitCI pat.data s with
  | none => none
  | some r1 =>
    let r2 := r1.drop (r1.takeWhile isPySpace).length
    let ds := r2.takeWhile Char.isDigit
    if ds.isEmpty then none
    else
      let rem := r2.drop ds.length
      if tailBoundary rem then some rem else none

/-- Match `LIT\d+\b` at the head of `s` (used by `Multi\d+`). -/
def matchLitNum (pat : String) (s : List Char) : Option (List Char) :=
  match stripLitCI pat.data s with
  | none => none
  | some r1 =>
    let ds := r1.takeWhile Char.isDigit
    if ds.isEmpty then none
    else
      let rem := r1.drop ds.length
      if tailBoundary rem then some rem else none

/-- Match `\b{pat}\b` at the head of `s`; the leading boundary is the
caller's responsibility.  Returns the remainder after the match. -/
def matchJunk : Junk → List Char → Option (List Char)
  | .lit p, s =>
    match stripLitCI p.data s with
    | some rem => if tailBoundary rem then some rem else none
    | none => none
  | .vnum, s => matchVNum s
  | .wordNum p, s => matchWordNum p s
  | .litNum p, s => matchLitNum p s

/-- One `re.sub(rf'\b{pat}\b', '', n, flags=re.IGNORECASE)` scan.
`prev` is the character of the original string just before the current
position (matching continues on the original string after each removal).
All patterns start with a word character, so a match is only possible when
`prev` is absent or not a word character; after a successful match the next
character is not a word character (trailing `\b`), so no match can start
there and it is emitted directly.  `fuel ≥ length` always suffices because
every step consumes at least one character of the original string. -/
def subScan (j : Junk) : Nat → Option Char → List Char → List Char
  | 0, _, s => s
  | _ + 1, _, [] => []
  | fuel + 1, prev, c :: rest =>
    if (match prev with | none => true | some p => !isWordChar p) then
      match matchJunk j (c :: rest) with
      | some rem =>
        match rem with
        | [] => []
        | r :: rs => r :: subScan j fuel (some r) rs
      | none => c :: subScan j fuel (some c) rest
    else c :: subScan j fuel (some c) rest

/-- One whole-word removal pass over `s`. -/
def subJunk (j : Junk) (s : List Char) : List Char :=
  subScan j s.length none s

/-- The `junk` pattern list of `_clean_name`, in source order (literal
patterns stored lowercase; matching is case-insensitive). -/
def junkList : List Junk :=
  [ .lit "tenoke", .lit "rune", .lit "dodi", .lit "fitgirl", .lit "repack",
    .lit "empress", .lit "codex", .lit "skidrow", .lit "cpy", .lit "plaza",
    .lit "hoodlum", .lit "razor1911", .lit "tinyiso", .lit "prophet",
    .lit "darksiders", .lit "anomaly", .lit "simplex",
    .lit "gog", .lit "portable", .lit "steam", .lit "epic",
    .vnum, .wordNum "build", .wordNum "update",
    .lit "dx11", .lit "dx12", .lit "x64", .lit "x86", .litNum "multi",
    .lit "dlc", .lit "vr", .lit "hdr", .lit "4k", .lit "uhd",
    .lit "goty", .lit "game of the year",
    .lit "enhanced edition", .lit "definitive edition", .lit "complete edition",
    .lit "ultimate edition", .lit "deluxe edition", .lit "premium edition",
    .lit "gold edition", .lit "legendary edition", .lit "anniversary edition",
    .lit "early access", .lit "demo", .lit "alpha", .lit "beta", .lit "preview" ]

/-- Helper for non-greedy span removal: given the characters after an
opening delimiter, return the remainder after the first closing delimiter,
failing if a newline (which `.` does not match) or the end of the string
comes first. -/
def findClose (cl : Char) : List Char → Option (List Char)
  | [] => none
  | c :: t => if c = cl then some t else if c = '\n' then none else findClose cl t

/-- `re.sub(r'\[.*?\]', '', n)` and `re.sub(r'\(.*?\)', '', n)`:
remove every non-overlapping minimal delimited span (spans cannot
contain a newline).  Structural recursion on fuel; every step consumes
at least one character, so `fuel ≥ length` always suffices. -/
def removeSpansF (op cl : Char) : Nat → List Char → List Char
  | 0, s => s
  | _ + 1, [] => []
  | fuel + 1, c :: t =>
    if c = op then
      match findClose cl t with
      | some rem => removeSpansF op cl fuel rem
      | none => c :: removeSpansF op cl fuel t
    else c :: removeSpansF op cl fuel t

/-- One full minimal-span removal pass. -/
def removeSpans (op cl : Char) (s : List Char) : List Char :=
  removeSpansF op cl s.length s

/-- `re.sub(r'\((?:19|20)\d{2}\)', '', n)`: remove parenthesised
years 19xx / 20xx.  Structural recursion on fuel, as above. -/
def removeYearParensF : Nat → List Char → List Char
  | 0, s => s
  | _ + 1, [] => []
  | fuel + 1, s@(x :: rest') =>
    match s with
    | '(' :: a :: b :: c :: d :: ')' :: rest =>
      if ((a = '1' ∧ b = '9') ∨ (a = '2' ∧ b = '0')) ∧ c.isDigit ∧ d.isDigit then
        removeYearParensF fuel rest
      else '(' :: removeYearParensF fuel (a :: b :: c :: d :: ')' :: rest)
    | _ => x :: removeYearParensF fuel rest'

/-- One full year-span removal pass. -/
def removeYearParens (s : List Char) : List Char :=
  removeYearParensF s.length s

/-- Characters of the edge-stripping class `[\s\-–—_.:]`. -/
def isStripChar (c : Char) : Bool :=
  isPySpace c || c = '-' || c = '–' || c = '—' || c = '_' || c = '.' || c = ':'

/-- `re.sub(r'^[\s\-–—_.:]+|[\s\-–—_.:]+$', '', n)`. -/
def stripEnds (s : List Char) : List Char :=
  ((s.dropWhile isStripChar).reverse.dropWhile isStripChar).reverse

/-- `n.split()`: split on runs of whitespace, discarding empty pieces.
The first argument accumulates the current word in reverse. -/
def splitWS : List Char → List Char → List (List Char)
  | cur, [] => if cur.isEmpty then [] else [cur.reverse]
  | cur, c :: t =>
    if isPySpace c then
      if cur.isEmpty then splitWS [] t else cur.reverse :: splitWS [] t
    else splitWS (c :: cur) t

/-- `' '.join(n.split())`. -/
def collapseWS (s : List Char) : List Char :=
  List.intercalate [' '] (splitWS [] s)

/-- `IconExtractor._clean_name` (src/game_manager.py lines 118-165):
dots/underscores to spaces, the ordered junk-pattern passes, bracketed
span removal, year-span removal, parenthesised span removal, edge
stripping, whitespace collapse. -/
def cleanName (name : String) : String :=
  let n1 := name.data.map (fun c => if c = '.' || c = '_' then ' ' else c)
  let n2 := junkList.foldl (fun acc j => subJunk j acc) n1
  let n3 := removeSpans '[' ']' n2
  let n4 := removeYearParens n3
  let n5 := removeSpans '(' ')' n4
  let n6 := stripEnds n5
  String.mk (collapseWS n6)

/-! ## Cache-key derivation of `CoverAPIManager.get_cover` (lines 576-578)

`key_id = app_id if app_id else hashlib.md5(clean_name.encode()).hexdigest()`
`cache_path = cache_dir / f"{hashlib.md5(str(key_id).lower().encode()).hexdigest()[:12]}.jpg"`

The MD5 hex digest is abstracted as the parameter `md5hex`; every property
below is proved for an arbitrary digest function. -/

/-- Python `str.lower` (ASCII level), used for `str(key_id).lower()` and
`game_name.lower()`. -/
def strLower (s : String) : String := String.mk (s.data.map Char.toLower)

/-- The first `n` characters of a string (`hexdigest()[:12]`). -/
def strTake (s : String) (n : Nat) : String := String.mk (s.data.take n)

/-- The deterministic cache file path derived by `get_cover`. -/
def cachePath (md5hex : String → String) (cacheDir : String)
    (gameTitle : String) (appId : Option String) : String :=
  let cleanN := cleanName gameTitle
  let keyId : String :=
    match appId with
    | some a => a
    | none => md5hex cleanN
  cacheDir ++ "/" ++ strTake (md5hex (strLower keyId)) 12 ++ ".jpg"

/-! ## The fallback chain of `CoverAPIManager.get_cover` (lines 574-640)

Network and disk side effects are supplied as oracles describing the
outcome of one resolution call: what URL list SteamGridDB returns for an
id, whether downloading a given URL succeeds, and so on.  `env.sgdb` /
`env.rawg` are `none` exactly when the corresponding credential was not
configured (`self.sgdb = SteamGridDBClient(k) if k else None`, line 547). -/

/-- Outcome oracle for one `SteamGridDBClient` instance as seen by
`get_cover`: the URL lists and the name-search result it would produce. -/
structure SgdbOracle where
  gridsBySteamId : String → List String
  searchGame : String → Option String
  gridsByGameId : String → List String

/-- The environment of one `get_cover` call. -/
structure CoverEnv where
  md5hex : String → String
  cacheDir : String
  sgdb : Option SgdbOracle
  rawg : Option (String → Option String)
  dlImage : String → Bool
  dlFile : String → Bool
  steamSearch : String → Option String
  ddg : String → Bool
  exeIcon : String → Bool

/-- The candidate CDN URL list of `IconExtractor._download_steam_cover`
(lines 216-221). -/
def steamCoverUrls (appId : String) : List String :=
  [ "https://cdn.cloudflare.steamstatic.com/steam/apps/" ++ appId ++ "/library_600x900.jpg",
    "https://steamcdn-a.akamaihd.net/steam/apps/" ++ appId ++ "/library_600x900.jpg",
    "https://cdn.cloudflare.steamstatic.com/steam/apps/" ++ appId ++ "/header.jpg",
    "https://cdn.cloudflare.steamstatic.com/steam/apps/" ++ appId ++ "/capsule_616x353.jpg" ]

/-- `IconExtractor._download_steam_cover` (lines 214-225): try the CDN
URLs in order, succeeding at the first successful download. -/
def downloadSteamCover (dlFile : String → Bool) (appId : String) : Bool :=
  (steamCoverUrls appId).any dlFile

/-- The seven fallback attempts of `get_cover` (code comments label them
Tier 2 to Tier 8; Tier 1 is the caller-side cache check). -/
inductive Tier where
  | sgdbById
  | steamCDN
  | rawgTier
  | storeSearch
  | sgdbByName
  | ddg
  | exeIcon
deriving DecidableEq, Repr

/-- Result of one `get_cover` call together with the ordered list of
tiers whose body was actually entered (= attempted).  A tier whose guard
fails contributes nothing to the trace; an attempted tier that fails is
recorded and the walk continues; the first success ends the walk. -/
abbrev CoverRes := (Option String × String) × List Tier

/-- Tier 8 of `get_cover` (lines 632-640): EXE icon extraction behind the
`if exe_path:` guard, falling through to `return (None, "None")`. -/
def coverTier8 (env : CoverEnv) (cp : String) (exePath : Option String) : CoverRes :=
  match exePath with
  | some p =>
    if env.exeIcon p then ((some cp, "EXE Icon"), [Tier.exeIcon])
    else ((none, "None"), [Tier.exeIcon])
  | none => ((none, "None"), [])

/-- Tier 7 of `get_cover` (lines 626-630): DuckDuckGo search, no guard. -/
def coverTier7 (env : CoverEnv) (cp : String) (gameTitle : String)
    (exePath : Option String) : CoverRes :=
  if env.ddg gameTitle then ((some cp, "DuckDuckGo"), [Tier.ddg])
  else
    let r := coverTier8 env cp exePath
    (r.1, Tier.ddg :: r.2)

/-- Tier 6 of `get_cover` (lines 615-624): SteamGridDB name search behind
the `if self.sgdb:` guard. -/
def coverTier6 (env : CoverEnv) (cp : String) (gameTitle : String)
    (exePath : Option String) : CoverRes :=
  match env.sgdb with
  | some sg =>
    (match sg.searchGame (cleanName gameTitle) with
     | some gameId =>
       if (sg.gridsByGameId gameId).any env.dlImage then
         ((some cp, "SteamGridDB"), [Tier.sgdbByName])
       else
         let r := coverTier7 env cp gameTitle exePath
         (r.1, Tier.sgdbByName :: r.2)
     | none =>
       let r := coverTier7 env cp gameTitle exePath
       (r.1, Tier.sgdbByName :: r.2))
  | none => coverTier7 env cp gameTitle exePath

/-- Tier 5 of `get_cover` (lines 607-613): Steam store search on the raw
title followed by the CDN download, no guard. -/
def coverTier5 (env : CoverEnv) (cp : String) (gameTitle : String)
    (exePath : Option String) : CoverRes :=
  match env.steamSearch gameTitle with
  | some foundId =>
    if downloadSteamCover env.dlFile foundId then
      ((some cp, "Steam Store"), [Tier.storeSearch])
    else
      let r := coverTier6 env cp gameTitle exePath
      (r.1, Tier.storeSearch :: r.2)
  | none =>
    let r := coverTier6 env cp gameTitle exePath
    (r.1, Tier.storeSearch :: r.2)

/-- Tier 4 of `get_cover` (lines 598-605): RAWG search on the cleaned
title behind the `if self.rawg:` guard. -/
def coverTier4 (env : CoverEnv) (cp : String) (gameTitle : String)
    (exePath : Option String) : CoverRes :=
  match env.rawg with
  | some search =>
    (match search (cleanName gameTitle) with
     | some imageUrl =>
       if env.dlImage imageUrl then ((some cp, "RAWG.io"), [Tier.rawgTier])
       else
         let r := coverTier5 env cp gameTitle exePath
         (r.1, Tier.rawgTier :: r.2)
     | none =>
       let r := coverTier5 env cp gameTitle exePath
       (r.1, Tier.rawgTier :: r.2))
  | none => coverTier5 env cp gameTitle exePath

/-- Tier 3 of `get_cover` (lines 591-596): direct Steam CDN behind the
`if app_id:` guard. -/
def coverTier3 (env : CoverEnv) (cp : String) (gameTitle : String)
    (appId exePath : Option String) : CoverRes :=
  match appId with
  | some aid =>
    if downloadSteamCover env.dlFile aid then
      ((some cp, "Steam CDN"), [Tier.steamCDN])
    else
      let r := coverTier4 env cp gameTitle exePath
      (r.1, Tier.steamCDN :: r.2)
  | none => coverTier4 env cp gameTitle exePath

/-- Tier 2 of `get_cover` (lines 582-589): SteamGridDB by Steam app id
behind the `if app_id and self.sgdb:` guard. -/
def coverTier2 (env : CoverEnv) (cp : String) (gameTitle : String)
    (appId exePath : Option String) : CoverRes :=
  match appId, env.sgdb with
  | some aid, some sg =>
    if (sg.gridsBySteamId aid).any env.dlImage then
      ((some cp, "SteamGridDB"), [Tier.sgdbById])
    else
      let r := coverTier3 env cp gameTitle appId exePath
      (r.1, Tier.sgdbById :: r.2)
  | _, _ => coverTier3 env cp gameTitle appId exePath

/-- `CoverAPIManager.get_cover` (lines 574-640), instrumented with the
attempt trace: cache path derivation (lines 576-578) followed by the
tier chain. -/
def getCoverTrace (env : CoverEnv) (gameTitle : String)
    (appId exePath : Option String) : CoverRes :=
  coverTier2 env (cachePath env.md5hex env.cacheDir gameTitle appId)
    gameTitle appId exePath

/-- The `(path, source)` pair returned by `get_cover`. -/
def getCover (env : CoverEnv) (gameTitle : String)
    (appId exePath : Option String) : Option String × String :=
  (getCoverTrace env gameTitle appId exePath).1

/-! Spec-side description of the chain (§4.7 of the spec): an ordered,
declarative list of tier descriptors with preconditions, walked
generically, short-circuiting on the first success.  These definitions
follow the spec's words and are compared with `getCoverTrace`. -/

/-- The spec's priority order of the seven tiers. -/
def tierOrder : List Tier :=
  [Tier.sgdbById, Tier.steamCDN, Tier.rawgTier, Tier.storeSearch,
   Tier.sgdbByName, Tier.ddg, Tier.exeIcon]

/-- The spec's tier preconditions: stable identifier present, credential
configured, executable path present. -/
def tierPre (env : CoverEnv) (appId exePath : Option String) : Tier → Bool
  | .sgdbById => appId.isSome && env.sgdb.isSome
  | .steamCDN => appId.isSome
  | .rawgTier => env.rawg.isSome
  | .storeSearch => true
  | .sgdbByName => env.sgdb.isSome
  | .ddg => true
  | .exeIcon => exePath.isSome

/-- Whether an attempted tier succeeds (value irrelevant when the
precondition fails). -/
def tierOk (env : CoverEnv) (gameTitle : String)
    (appId exePath : Option String) : Tier → Bool
  | .sgdbById =>
    (match appId, env.sgdb with
     | some aid, some sg => (sg.gridsBySteamId aid).any env.dlImage
     | _, _ => false)
  | .steamCDN =>
    (match appId with
     | some aid => downloadSteamCover env.dlFile aid
     | none => false)
  | .rawgTier =>
    (match env.rawg with
     | some search =>
       (match search (cleanName gameTitle) with
        | some imageUrl => env.dlImage imageUrl
        | none => false)
     | none => false)
  | .storeSearch =>
    (match env.steamSearch gameTitle with
     | some foundId => downloadSteamCover env.dlFile foundId
     | none => false)
  | .sgdbByName =>
    (match env.sgdb with
     | some sg =>
       (match sg.searchGame (cleanName gameTitle) with
        | some gameId => (sg.gridsByGameId gameId).any env.dlImage
        | none => false)
     | none => false)
  | .ddg => env.ddg gameTitle
  | .exeIcon =>
    (match exePath with
     | some p => env.exeIcon p
     | none => false)

/-- The provenance tag each tier reports on success (the code's literal
strings). -/
def tierTag : Tier → String
  | .sgdbById => "SteamGridDB"
  | .steamCDN => "Steam CDN"
  | .rawgTier => "RAWG.io"
  | .storeSearch => "Steam Store"
  | .sgdbByName => "SteamGridDB"
  | .ddg => "DuckDuckGo"
  | .exeIcon => "EXE Icon"

/-- The spec's generic walk over a list of tier descriptors: skip a tier
whose precondition fails, stop at the first success, otherwise record the
attempt and continue; exhaustion yields `(none, "None")`. -/
def specWalk (env : CoverEnv) (gameTitle : String)
    (appId exePath : Option String) : List Tier → (Option String × String) × List Tier
  | [] => ((none, "None"), [])
  | t :: ts =>
    if tierPre env appId exePath t then
      (if tierOk env gameTitle appId exePath t then
        ((some (cachePath env.md5hex env.cacheDir gameTitle appId), tierTag t), [t])
      else
        let r := specWalk env gameTitle appId exePath ts
        (r.1, t :: r.2))
    else specWalk env gameTitle appId exePath ts

/-! ## Rate limiting: `_wait_rate_limit` (lines 308-313 and 410-415)

`elapsed = time.time() - self._last_request_time`;
`if elapsed < self._min_delay: time.sleep(self._min_delay - elapsed)`;
`self._last_request_time = time.time()`.

Idealised clock: `time.time()` is monotone and `time.sleep(x)` advances it
by exactly `x`.  `now` is the `time.time()` reading on entry, the result is
the new `_last_request_time` = the dispatch timestamp of the request that
follows.  Time is measured in integer milliseconds, so the source's
`_min_delay` values 0.25 s and 0.1 s become 250 and 100. -/

/-- Dispatch timestamp produced by one `_wait_rate_limit` call. -/
def dispatchTime (minDelay lastTime now : ℤ) : ℤ :=
  if now - lastTime < minDelay then lastTime + minDelay else now

/-- Dispatch timestamps of a sequence of rate-limited requests;
`nows` are the successive `time.time()` readings on entry. -/
def runDispatch (minDelay : ℤ) : ℤ → List ℤ → List ℤ
  | _, [] => []
  | lastTime, n :: ns =>
    let t := dispatchTime minDelay lastTime n
    t :: runDispatch minDelay t ns

/-! ## `SteamGridDBClient` (lines 297-396)

State: `api_key` (cleared permanently on HTTP 401), the in-memory
`session_cache`, `_last_request_time`.  The HTTP outcome of the single
`urlopen` a call would perform is an explicit argument.  The `Bool` in each
result is true iff the call performed network I/O. -/

/-- One grid entry of a SteamGridDB response body. -/
structure SgdbGrid where
  width : Nat
  height : Nat
  url : String

/-- Parsed SteamGridDB response body (`success` flag and `data` list). -/
structure SgdbBody where
  success : Bool
  data : List SgdbGrid

/-- Outcome of one HTTP request: 200 with a parsed body, an
`urllib.error.HTTPError` with a status code, or any other exception. -/
inductive HttpOutcome where
  | ok (body : SgdbBody)
  | httpError (code : Nat)
  | netError

/-- `SteamGridDBClient` state. -/
structure SgdbState where
  apiKey : Option String
  sessionCache : List (String × List String)
  lastRequestTime : ℤ

/-- `SteamGridDBClient._make_request` (lines 315-342): no key means no
request at all; a 401 clears the key permanently; any other failure
returns no result.  Result: `(parsed body, new state, network I/O?)`. -/
def sgdbMakeRequest (st : SgdbState) (now : ℤ) (resp : HttpOutcome) :
    Option SgdbBody × SgdbState × Bool :=
  match st.apiKey with
  | none => (none, st, false)
  | some _ =>
    let st1 : SgdbState :=
      { st with lastRequestTime := dispatchTime 250 st.lastRequestTime now }
    match resp with
    | .ok body => (some body, st1, true)
    | .httpError code =>
      if code = 401 then (none, { st1 with apiKey := none }, true)
      else (none, st1, true)
    | .netError => (none, st1, true)

/-- URL selection of `get_grids_by_steam_id` / `get_grids_by_game_id`
(lines 352-364): prefer 600x900 grids, else fall back to the first three. -/
def sgdbSelectUrls (data? : Option SgdbBody) : List String :=
  match data? with
  | some body =>
    if body.success && !body.data.isEmpty then
      let preferred := (body.data.filter
        (fun g => g.height = 900 && g.width = 600)).map SgdbGrid.url
      if preferred.isEmpty then (body.data.take 3).map SgdbGrid.url else preferred
    else []
  | none => []

/-- `SteamGridDBClient.get_grids_by_steam_id` (lines 344-364): memoised in
`session_cache` under `"steam_" ++ id`; a memo hit performs no network I/O. -/
def sgdbGridsBySteamId (st : SgdbState) (steamAppId : String) (now : ℤ)
    (resp : HttpOutcome) : List String × SgdbState × Bool :=
  let cacheKey := "steam_" ++ steamAppId
  match st.sessionCache.lookup cacheKey with
  | some urls => (urls, st, false)
  | none =>
    let (data?, st1, attempted) := sgdbMakeRequest st now resp
    let urls := sgdbSelectUrls data?
    (urls, { st1 with sessionCache := (cacheKey, urls) :: st1.sessionCache }, attempted)

/-! ## `RAWGClient` (lines 399-454)

`search_game` has no dedicated 401 branch: every exception, HTTP 401
included, falls into the generic handler, which memoises a missing result
for that query only and leaves `api_key` untouched. -/

/-- One entry of a RAWG `results` list. -/
structure RawgGame where
  background_image : Option String

/-- Outcome of one RAWG HTTP request. -/
inductive RawgOutcome where
  | ok (results : List RawgGame)
  | httpError (code : Nat)
  | netError

/-- `RAWGClient` state; `sessionCache` stores `none` for memoised
negative results (the Python dict stores `None` under the key). -/
structure RawgState where
  apiKey : Option String
  sessionCache : List (String × Option String)
  lastRequestTime : ℤ

/-- `RAWGClient.search_game` (lines 417-454).
Result: `(background image URL, new state, network I/O?)`. -/
def rawgSearchGame (st : RawgState) (gameName : String) (now : ℤ)
    (resp : RawgOutcome) : Option String × RawgState × Bool :=
  match st.apiKey with
  | none => (none, st, false)
  | some _ =>
    let cacheKey := "rawg_" ++ strLower gameName
    match st.sessionCache.lookup cacheKey with
    | some v => (v, st, false)
    | none =>
      let st1 : RawgState :=
        { st with lastRequestTime := dispatchTime 100 st.lastRequestTime now }
      match resp with
      | .ok results =>
        match results with
        | game :: _ =>
          let imageUrl := game.background_image
          (imageUrl,
           { st1 with sessionCache := (cacheKey, imageUrl) :: st1.sessionCache },
           true)
        | [] =>
          (none, { st1 with sessionCache := (cacheKey, none) :: st1.sessionCache }, true)
      | .httpError _ =>
        (none, { st1 with sessionCache := (cacheKey, none) :: st1.sessionCache }, true)
      | .netError =>
        (none, { st1 with sessionCache := (cacheKey, none) :: st1.sessionCache }, true)

/-! ## `CoverValidator` (lines 457-538)

The file system is modelled as `String → Option Nat`: the byte size of the
file at a path, or `none` when no file exists there. -/

/-- `CoverValidator.validate_cache_file` (lines 464-483): non-empty path,
existing file, and at least 2048 bytes (below 2 KB is treated as invalid);
no content verification. -/
def validateCacheFile (fs : String → Option Nat) (filePath : String) : Bool :=
  if filePath = "" then false
  else
    match fs filePath with
    | none => false
    | some size => if size < 2048 then false else true

/-- Result of reading `library.json` at the start of
`cleanup_orphaned_cache`: the file may be missing, opening or parsing it
may raise, or it yields a list of games of which only the `icon_path`
field matters here. -/
inductive LibRead where
  | missing
  | parseError
  | ok (iconPaths : List (Option String))

/-- `Path(p).name`: the final component of a path (Windows accepts both
separators). -/
def pathName (p : String) : String :=
  String.mk ((p.data.reverse.takeWhile (fun c => !(c = '/' || c = '\\'))).reverse)

/-- The referenced-filename set (lines 493-498): the basename of every
truthy `icon_path` (`None` and the empty string are skipped). -/
def referencedFiles (iconPaths : List (Option String)) : List String :=
  iconPaths.foldr
    (fun ip acc =>
      match ip with
      | some p => if p = "" then acc else pathName p :: acc
      | none => acc) []

/-- Suffix test used to model `Path.glob('*.jpg')` / `glob('*.png')`. -/
def strEnds (s suffix : String) : Bool :=
  suffix.data.reverse.isPrefixOf s.data.reverse

/-- A filename matched by one of the two glob patterns of the sweep. -/
def isImageFile (f : String) : Bool := strEnds f ".jpg" || strEnds f ".png"

/-- `CoverValidator.cleanup_orphaned_cache` (lines 485-526).  The cache
directory is `none` when it does not exist, else the list of filenames it
contains.  Glob candidates are taken per extension, unreferenced ones are
unlinked (always successfully here) while counting; the `*.png` pass runs
over the directory as left by the `*.jpg` pass.  Returns
`((removed, total), directory afterwards)`. -/
def cleanupOrphanedCache (lib : LibRead) (dir : Option (List String)) :
    (Nat × Nat) × Option (List String) :=
  match lib with
  | .missing => ((0, 0), dir)
  | .parseError => ((0, 0), dir)
  | .ok iconPaths =>
    let referenced := referencedFiles iconPaths
    match dir with
    | none => ((0, 0), none)
    | some files =>
      let jpgCand := files.filter (fun f => strEnds f ".jpg")
      let jpgDel := jpgCand.filter (fun f => !referenced.contains f)
      let files1 := files.filter (fun f => !jpgDel.contains f)
      let pngCand := files1.filter (fun f => strEnds f ".png")
      let pngDel := pngCand.filter (fun f => !referenced.contains f)
      let files2 := files1.filter (fun f => !pngDel.contains f)
      ((jpgDel.length + pngDel.length, jpgCand.length + pngCand.length), some files2)

/-! ## Correspondence between the source chain and the spec's walk -/

theorem coverTier8_spec (env : CoverEnv) (gameTitle : String)
    (appId exePath : Option String) :
    coverTier8 env (cachePath env.md5hex env.cacheDir gameTitle appId) exePath
      = specWalk env gameTitle appId exePath [Tier.exeIcon] := by
  cases exePath <;>
    simp only [coverTier8, specWalk, tierPre, tierOk, tierTag, Option.isSome_none,
      Option.isSome_some, Bool.false_eq_true, if_false, if_true, reduceIte] <;>
    (try split) <;> (try rfl)

theorem coverTier7_spec (env : CoverEnv) (gameTitle : String)
    (appId exePath : Option String) :
    coverTier7 env (cachePath env.md5hex env.cacheDir gameTitle appId) gameTitle exePath
      = specWalk env gameTitle appId exePath [Tier.ddg, Tier.exeIcon] := by
  unfold coverTier7
  rw [specWalk]
  simp only [tierPre, tierOk, tierTag, if_true]
  rw [coverTier8_spec env gameTitle appId exePath]

theorem coverTier6_spec (env : CoverEnv) (gameTitle : String)
    (appId exePath : Option String) :
    coverTier6 env (cachePath env.md5hex env.cacheDir gameTitle appId) gameTitle exePath
      = specWalk env gameTitle appId exePath [Tier.sgdbByName, Tier.ddg, Tier.exeIcon] := by
  unfold coverTier6
  rw [specWalk]
  simp only [tierPre, tierOk, tierTag]
  rw [coverTier7_spec env gameTitle appId exePath]
  split <;>
    simp_all only [Option.isSome_some, Option.isSome_none, Bool.false_eq_true,
      if_false, if_true, reduceIte] <;>
    (repeat' split) <;> (try rfl) <;> simp_all

theorem coverTier5_spec (env : CoverEnv) (gameTitle : String)
    (appId exePath : Option String) :
    coverTier5 env (cachePath env.md5hex env.cacheDir gameTitle appId) gameTitle exePath
      = specWalk env gameTitle appId exePath
          [Tier.storeSearch, Tier.sgdbByName, Tier.ddg, Tier.exeIcon] := by
  unfold coverTier5
  rw [specWalk]
  simp only [tierPre, tierOk, tierTag, if_true]
  rw [coverTier6_spec env gameTitle appId exePath]
  split <;>
    simp_all only [Option.isSome_some, Option.isSome_none, Bool.false_eq_true,
      if_false, if_true, reduceIte] <;>
    (repeat' split) <;> (try rfl) <;> simp_all

theorem coverTier4_spec (env : CoverEnv) (gameTitle : String)
    (appId exePath : Option String) :
    coverTier4 env (cachePath env.md5hex env.cacheDir gameTitle appId) gameTitle exePath
      = specWalk env gameTitle appId exePath
          [Tier.rawgTier, Tier.storeSearch, Tier.sgdbByName, Tier.ddg, Tier.exeIcon] := by
  unfold coverTier4
  rw [specWalk]
  simp only [tierPre, tierOk, tierTag]
  rw [coverTier5_spec env gameTitle appId exePath]
  split <;>
    simp_all only [Option.isSome_some, Option.isSome_none, Bool.false_eq_true,
      if_false, if_true, reduceIte] <;>
    (repeat' split) <;> (try rfl) <;> simp_all

theorem coverTier3_spec (env : CoverEnv) (gameTitle : String)
    (appId exePath : Option String) :
    coverTier3 env (cachePath env.md5hex env.cacheDir gameTitle appId) gameTitle appId exePath
      = specWalk env gameTitle appId exePath
          [Tier.steamCDN, Tier.rawgTier, Tier.storeSearch, Tier.sgdbByName,
           Tier.ddg, Tier.exeIcon] := by
  unfold coverTier3
  rw [specWalk]
  simp only [tierPre, tierOk, tierTag]
  rw [coverTier4_spec env gameTitle appId exePath]
  cases appId <;>
    simp_all only [Option.isSome_some, Option.isSome_none, Bool.false_eq_true,
      if_false, if_true, reduceIte] <;>
    (repeat' split) <;> (try rfl) <;> simp_all

theorem coverTier2_spec (env : CoverEnv) (gameTitle : String)
    (appId exePath : Option String) :
    coverTier2 env (cachePath env.md5hex env.cacheDir gameTitle appId) gameTitle appId exePath
      = specWalk env gameTitle appId exePath tierOrder := by
  unfold coverTier2 tierOrder
  rw [specWalk]
  simp only [tierPre, tierOk, tierTag]
  rw [coverTier3_spec env gameTitle appId exePath]
  cases appId <;> cases hs : env.sgdb <;>
    simp_all only [Option.isSome_some, Option.isSome_none, Bool.false_eq_true,
      Bool.true_and, Bool.false_and, Bool.and_true, Bool.and_false,
      if_false, if_true, reduceIte] <;>
    (repeat' split) <;> (try rfl) <;> simp_all

theorem getCoverTrace_eq_specWalk (env : CoverEnv) (gameTitle : String)
    (appId exePath : Option String) :
    getCoverTrace env gameTitle appId exePath
      = specWalk env gameTitle appId exePath tierOrder := by
  unfold getCoverTrace
  exact coverTier2_spec env gameTitle appId exePath

/-! ## Structural facts about the spec walk -/

theorem specWalk_path_none_iff (env : CoverEnv) (gameTitle : String)
    (appId exePath : Option String) (l : List Tier) :
    (specWalk env gameTitle appId exePath l).1.1 = none ↔
      ∀ t ∈ l, tierPre env appId exePath t = true →
        tierOk env gameTitle appId exePath t = false := by
  induction l with
  | nil => simp [specWalk]
  | cons t ts ih =>
    rw [specWalk]
    by_cases hp : tierPre env appId exePath t = true
    · rw [if_pos hp]
      by_cases ho : tierOk env gameTitle appId exePath t = true
      · rw [if_pos ho]
        simp [hp, ho]
      · rw [if_neg ho]
        simp only [List.mem_cons]
        constructor
        · intro h u hu hpu
          rcases hu with rfl | hu
          · simpa using ho
          · exact (ih.mp h) u hu hpu
        · intro h
          exact ih.mpr (fun u hu hpu => h u (Or.inr hu) hpu)
    · rw [if_neg hp]
      simp only [List.mem_cons]
      constructor
      · intro h u hu hpu
        rcases hu with rfl | hu
        · exact absurd hpu hp
        · exact (ih.mp h) u hu hpu
      · intro h
        exact ih.mpr (fun u hu hpu => h u (Or.inr hu) hpu)

theorem specWalk_none_pair (env : CoverEnv) (gameTitle : String)
    (appId exePath : Option String) (l : List Tier) :
    (specWalk env gameTitle appId exePath l).1.1 = none →
      (specWalk env gameTitle appId exePath l).1 = (none, "None") := by
  induction l with
  | nil => intro _; rfl
  | cons t ts ih =>
    rw [specWalk]
    by_cases hp : tierPre env appId exePath t = true
    · rw [if_pos hp]
      by_cases ho : tierOk env gameTitle appId exePath t = true
      · rw [if_pos ho]
        intro h
        simp at h
      · rw [if_neg ho]
        exact ih
    · rw [if_neg hp]
      exact ih

theorem specWalk_tag_mem (env : CoverEnv) (gameTitle : String)
    (appId exePath : Option String) (l : List Tier) :
    (specWalk env gameTitle appId exePath l).1.2 ∈ "None" :: l.map tierTag := by
  induction l with
  | nil => simp [specWalk]
  | cons t ts ih =>
    rw [specWalk]
    by_cases hp : tierPre env appId exePath t = true
    · rw [if_pos hp]
      by_cases ho : tierOk env gameTitle appId exePath t = true
      · rw [if_pos ho]
        simp
      · rw [if_neg ho]
        simp only [List.map_cons, List.mem_cons] at ih ⊢
        tauto
    · rw [if_neg hp]
      simp only [List.map_cons, List.mem_cons] at ih ⊢
      tauto

/-! ## Claim C1 -/

/-- C1: for every resolution call, `get_cover` attempts the tiers in exactly
the specified priority order (SteamGridDB by stable id, Steam CDN by stable
id, RAWG by normalized title, store-search-derived id then CDN, SteamGridDB
by name search, DuckDuckGo image search, EXE icon extraction), skips without
attempting any tier whose precondition (stable id present, credential
configured, executable path present) fails, and returns at the first
succeeding tier without attempting any later tier: the instrumented source
chain coincides with the spec's declarative priority walk, result and
attempt trace included. -/
theorem C1_tier_order_skip_and_short_circuit (env : CoverEnv) (gameTitle : String)
    (appId exePath : Option String) :
    getCoverTrace env gameTitle appId exePath
      = specWalk env gameTitle appId exePath tierOrder :=
  getCoverTrace_eq_specWalk env gameTitle appId exePath

/-! ## Claim C2 -/

/-- C2: `get_cover` always returns a `(path, source)` pair (the embedding is
a total function, mirroring that every tier catches its own exceptions and
`get_cover` raises nothing to its caller), the path is `none` exactly when
every precondition-satisfying tier failed, and in that case the returned
pair is `(none, "None")`. -/
theorem C2_total_and_none_iff_all_fail (env : CoverEnv) (gameTitle : String)
    (appId exePath : Option String) :
    ((getCover env gameTitle appId exePath).1 = none ↔
      ∀ t ∈ tierOrder, tierPre env appId exePath t = true →
        tierOk env gameTitle appId exePath t = false) ∧
    ((getCover env gameTitle appId exePath).1 = none →
      getCover env gameTitle appId exePath = (none, "None")) := by
  have h := getCoverTrace_eq_specWalk env gameTitle appId exePath
  unfold getCover
  rw [h]
  exact ⟨specWalk_path_none_iff env gameTitle appId exePath tierOrder,
    specWalk_none_pair env gameTitle appId exePath tierOrder⟩

/-- Environment in which every credential is missing and every probe
fails. -/
def envAllFail : CoverEnv where
  md5hex := fun _ => "d41d8cd98f00b204e9800998ecf8427e"
  cacheDir := "cache/icons"
  sgdb := none
  rawg := none
  dlImage := fun _ => false
  dlFile := fun _ => false
  steamSearch := fun _ => none
  ddg := fun _ => false
  exeIcon := fun _ => false

/-- C2 witness: with every tier failing, `get_cover` returns
`(none, "None")`. -/
theorem C2_total_and_none_iff_all_fail_witness :
    getCover envAllFail "Doom" none none = (none, "None") := by
  have h := C2_total_and_none_iff_all_fail envAllFail "Doom" none none
  exact h.2 (h.1.mpr (by decide))

/-! ## Claim C3 -/

/-- C3: cache-key determinism of `get_cover` (lines 576-578), for every
digest function: two requests with the same stable identifier derive the
same cache file path regardless of title text, and two requests without a
stable identifier whose titles normalize identically under `_clean_name`
derive the same cache file path. -/
theorem C3_cache_key_determinism :
    (∀ (md5hex : String → String) (cacheDir t1 t2 appId : String),
      cachePath md5hex cacheDir t1 (some appId) = cachePath md5hex cacheDir t2 (some appId)) ∧
    (∀ (md5hex : String → String) (cacheDir t1 t2 : String),
      cleanName t1 = cleanName t2 →
      cachePath md5hex cacheDir t1 none = cachePath md5hex cacheDir t2 none) := by
  constructor
  · intro md5hex cacheDir t1 t2 appId
    rfl
  · intro md5hex cacheDir t1 t2 hclean
    unfold cachePath
    rw [hclean]

/-- C3 witness: a concrete digest stand-in, a shared stable identifier, and
two titles with equal normal forms. -/
theorem C3_cache_key_determinism_witness :
    cachePath (fun s => s ++ s) "cache/icons" "Doom Eternal" (some "782330")
        = cachePath (fun s => s ++ s) "cache/icons" "DOOM ETERNAL [CODEX]" (some "782330") ∧
    cachePath (fun s => s ++ s) "cache/icons" "Doom Eternal [CODEX]" none
        = cachePath (fun s => s ++ s) "cache/icons" "Doom.Eternal" none := by
  refine ⟨C3_cache_key_determinism.1 _ _ _ _ _, C3_cache_key_determinism.2 _ _ _ _ ?_⟩
  decide

/-! ## Claim C4 -/

/-- Modelled from the spec: the spec's claimed exact provenance tag set,
`SteamGridDB | SteamCDN | RAWG | SteamStoreSearch | DuckDuckGo | ExeIcon | None`. -/
def specSourceTags : List String :=
  ["SteamGridDB", "SteamCDN", "RAWG", "SteamStoreSearch", "DuckDuckGo", "ExeIcon", "None"]

/-- Environment in which the Steam CDN download succeeds and everything
else fails. -/
def envCdnOk : CoverEnv where
  md5hex := fun _ => "d41d8cd98f00b204e9800998ecf8427e"
  cacheDir := "cache/icons"
  sgdb := none
  rawg := none
  dlImage := fun _ => false
  dlFile := fun _ => true
  steamSearch := fun _ => none
  ddg := fun _ => false
  exeIcon := fun _ => false

/-- C4 counterexample: a resolution satisfied by the direct-CDN tier
returns the literal provenance tag `"Steam CDN"`, which is not an element
of the spec's claimed exact tag set (the code's tags are spelled
`"Steam CDN"`, `"RAWG.io"`, `"Steam Store"`, `"EXE Icon"`). -/
theorem C4_counterexample_source_tag_spelling :
    (getCover envCdnOk "Doom Eternal" (some "782330") none).2 = "Steam CDN" ∧
    "Steam CDN" ∉ specSourceTags := by
  constructor
  · rfl
  · decide

/-- C4 (amended): the provenance component returned by `get_cover` always
belongs to the code's literal tag set `SteamGridDB`, `Steam CDN`,
`RAWG.io`, `Steam Store`, `DuckDuckGo`, `EXE Icon`, `None`. -/
theorem C4_source_tag_set (env : CoverEnv) (gameTitle : String)
    (appId exePath : Option String) :
    (getCover env gameTitle appId exePath).2 ∈
      ["SteamGridDB", "Steam CDN", "RAWG.io", "Steam Store",
       "DuckDuckGo", "EXE Icon", "None"] := by
  have h := getCoverTrace_eq_specWalk env gameTitle appId exePath
  unfold getCover
  rw [h]
  have hm := specWalk_tag_mem env gameTitle appId exePath tierOrder
  simp only [tierOrder, List.map_cons, List.map_nil, tierTag, List.mem_cons,
    List.mem_singleton] at hm
  simp only [List.mem_cons, List.mem_singleton]
  tauto
/-! ## Claim C5 -/

/-- The RAWG client state reached from a fresh keyed client after one
query that received HTTP 401. -/
def rawgAfter401 : RawgState :=
  (rawgSearchGame { apiKey := some "k", sessionCache := [], lastRequestTime := 0 }
    "alpha" 1000 (.httpError 401)).2.1

/-- C5 counterexample: `RAWGClient` is not disabled by a 401.  After one
query answered with HTTP 401, a later query for a different name performs
network I/O again (third component `true`) and can even return a result,
contradicting that every subsequent query returns no result with no
network I/O. -/
theorem C5_counterexample_rawg_after_401 :
    (rawgSearchGame rawgAfter401 "beta" 2000
        (.ok [{ background_image := some "https://img.example/beta.jpg" }])).2.2 = true ∧
    (rawgSearchGame rawgAfter401 "beta" 2000
        (.ok [{ background_image := some "https://img.example/beta.jpg" }])).1
      = some "https://img.example/beta.jpg" := by
  constructor <;> decide

/-- C5 (amended): `SteamGridDBClient` behaves as claimed — a 401 clears the
key permanently, and with the key absent every `_make_request` returns no
result, leaves the state untouched, and performs no network I/O — whereas
`RAWGClient.search_game` treats a 401 as a generic error: the key survives,
so the instance is not disabled. -/
theorem C5_auth_disable_sgdb_only :
    (∀ (st : SgdbState) (now : ℤ) (resp : HttpOutcome),
      st.apiKey = none → sgdbMakeRequest st now resp = (none, st, false)) ∧
    (∀ (st : SgdbState) (now : ℤ) (k : String),
      st.apiKey = some k →
      ((sgdbMakeRequest st now (.httpError 401)).2.1).apiKey = none) ∧
    (∀ (st : RawgState) (now : ℤ) (k : String) (gameName : String),
      st.apiKey = some k →
      ((rawgSearchGame st gameName now (.httpError 401)).2.1).apiKey = some k) := by
  refine ⟨?_, ?_, ?_⟩
  · intro st now resp h
    unfold sgdbMakeRequest
    rw [h]
  · intro st now k h
    simp [sgdbMakeRequest, h]
  · intro st now k gameName h
    simp only [rawgSearchGame, h]
    split <;> simp [h]

/-- C5 witness: the amended statement applied to concrete states. -/
theorem C5_auth_disable_sgdb_only_witness :
    sgdbMakeRequest { apiKey := none, sessionCache := [], lastRequestTime := 0 } 5
        (.ok { success := true, data := [] })
      = (none, { apiKey := none, sessionCache := [], lastRequestTime := 0 }, false) ∧
    ((sgdbMakeRequest { apiKey := some "k", sessionCache := [], lastRequestTime := 0 } 5
        (.httpError 401)).2.1).apiKey = none ∧
    ((rawgSearchGame { apiKey := some "k", sessionCache := [], lastRequestTime := 0 }
        "alpha" 5 (.httpError 401)).2.1).apiKey = some "k" :=
  ⟨C5_auth_disable_sgdb_only.1 _ 5 _ rfl,
   C5_auth_disable_sgdb_only.2.1 _ 5 "k" rfl,
   C5_auth_disable_sgdb_only.2.2 _ 5 "k" "alpha" rfl⟩

/-! ## Claim C6 -/

theorem dispatch_step (d lastTime now : ℤ) :
    lastTime + d ≤ dispatchTime d lastTime now := by
  unfold dispatchTime
  split <;> omega

theorem runDispatch_mem_ge (d : ℤ) (hd : 0 ≤ d) :
    ∀ (lastTime : ℤ) (nows : List ℤ), ∀ t ∈ runDispatch d lastTime nows,
      lastTime + d ≤ t := by
  intro lastTime nows
  induction nows generalizing lastTime with
  | nil => simp [runDispatch]
  | cons n ns ih =>
    intro t ht
    rw [runDispatch] at ht
    rcases List.mem_cons.mp ht with rfl | ht'
    · exact dispatch_step d lastTime n
    · have h1 := dispatch_step d lastTime n
      have h2 := ih (dispatchTime d lastTime n) t ht'
      omega

theorem runDispatch_pairwise (d : ℤ) (hd : 0 ≤ d) :
    ∀ (lastTime : ℤ) (nows : List ℤ),
      (runDispatch d lastTime nows).Pairwise (fun a b => a + d ≤ b) := by
  intro lastTime nows
  induction nows generalizing lastTime with
  | nil => simp [runDispatch]
  | cons n ns ih =>
    rw [runDispatch]
    exact List.Pairwise.cons
      (fun b hb => runDispatch_mem_ge d hd (dispatchTime d lastTime n) ns b hb)
      (ih (dispatchTime d lastTime n))

/-- C6: rate-limiter invariant under the idealised millisecond clock.  For
the SteamGridDB client (`_min_delay` 0.25 s = 250 ms) and the RAWG client
(`_min_delay` 0.1 s = 100 ms), any sequence of non-memoized dispatches
through one instance has every pair of dispatch timestamps at least
`_min_delay` apart (later ones not less than earlier plus the delay), and
five sequential queries of the 250 ms client span at least
4 × 250 ms = 1000 ms from first to last dispatch, whatever the entry clock
readings are. -/
theorem C6_rate_limiter_spacing :
    (∀ (lastTime : ℤ) (nows : List ℤ),
      (runDispatch 250 lastTime nows).Pairwise (fun a b => a + 250 ≤ b)) ∧
    (∀ (lastTime : ℤ) (nows : List ℤ),
      (runDispatch 100 lastTime nows).Pairwise (fun a b => a + 100 ≤ b)) ∧
    (∀ lastTime n1 n2 n3 n4 n5 : ℤ,
      dispatchTime 250 lastTime n1 + 4 * 250 ≤
        dispatchTime 250
          (dispatchTime 250
            (dispatchTime 250 (dispatchTime 250 (dispatchTime 250 lastTime n1) n2) n3)
            n4) n5) := by
  refine ⟨runDispatch_pairwise 250 (by omega), runDispatch_pairwise 100 (by omega), ?_⟩
  intro lastTime n1 n2 n3 n4 n5
  have h2 := dispatch_step 250 (dispatchTime 250 lastTime n1) n2
  have h3 := dispatch_step 250
    (dispatchTime 250 (dispatchTime 250 lastTime n1) n2) n3
  have h4 := dispatch_step 250
    (dispatchTime 250 (dispatchTime 250 (dispatchTime 250 lastTime n1) n2) n3) n4
  have h5 := dispatch_step 250
    (dispatchTime 250 (dispatchTime 250 (dispatchTime 250 (dispatchTime 250 lastTime n1) n2) n3)
      n4) n5
  omega

/-! ## Claim C7 -/

/-- C7: `_clean_name` is not idempotent.  On `"GO[x]G"` the junk pass finds
no whole-word match, bracket removal then produces `"GOG"`, and a second
application removes the newly exposed release tag entirely, so
`_clean_name(_clean_name(x)) ≠ _clean_name(x)` at this input (the claimed
totality does hold: the embedding is a total function). -/
theorem C7_clean_name_not_idempotent :
    cleanName "GO[x]G" = "GOG" ∧
    cleanName (cleanName "GO[x]G") = "" ∧
    cleanName (cleanName "GO[x]G") ≠ cleanName "GO[x]G" := by
  refine ⟨by decide, by decide, by decide⟩


/-! ## Claim C8 -/

/-- Modelled from the spec: a cache entry is valid iff the path is
non-empty, the file exists, and its byte size strictly exceeds the
2048-byte minimum threshold. -/
def specValidExceeds (fs : String → Option Nat) (filePath : String) : Bool :=
  filePath != "" &&
    (match fs filePath with
     | some size => decide (2048 < size)
     | none => false)

/-- A file system holding one file of exactly 2048 bytes. -/
def fsExact2048 : String → Option Nat :=
  fun p => if p = "cache/icons/a.jpg" then some 2048 else none

/-- C8 counterexample: at exactly 2048 bytes, `validate_cache_file`
answers true (the code rejects only `st_size < 2048`), while a size of
2048 does not exceed the 2048-byte threshold, so the claimed
characterisation fails at the boundary. -/
theorem C8_counterexample_exact_2048 :
    validateCacheFile fsExact2048 "cache/icons/a.jpg" = true ∧
    specValidExceeds fsExact2048 "cache/icons/a.jpg" = false := by
  constructor <;> decide

/-- A file system with a 0-byte, a 1000-byte and a 5000-byte file. -/
def fsSizes : String → Option Nat :=
  fun p =>
    if p = "zero.jpg" then some 0
    else if p = "small.jpg" then some 1000
    else if p = "big.jpg" then some 5000
    else none

/-- C8 (amended): `validate_cache_file` returns true iff the path is
non-empty, the file exists, and its size is at least 2048 bytes (2048
itself is accepted; only sizes below the threshold are rejected), with no
content inspection; in particular it is false for a missing, 0-byte or
1000-byte file and true for a 5000-byte file. -/
theorem C8_validate_is_size_check :
    (∀ (fs : String → Option Nat) (filePath : String),
      validateCacheFile fs filePath = true ↔
        (filePath ≠ "" ∧ ∃ size, fs filePath = some size ∧ 2048 ≤ size)) ∧
    validateCacheFile fsSizes "missing.jpg" = false ∧
    validateCacheFile fsSizes "zero.jpg" = false ∧
    validateCacheFile fsSizes "small.jpg" = false ∧
    validateCacheFile fsSizes "big.jpg" = true := by
  refine ⟨?_, by decide, by decide, by decide, by decide⟩
  intro fs filePath
  unfold validateCacheFile
  rcases hfs : fs filePath with _ | size
  · by_cases hp : filePath = "" <;> simp_all
  · by_cases hp : filePath = "" <;> by_cases hsz : size < 2048 <;> simp_all <;> omega

/-! ## Claim C9: helper lemmas -/

theorem rev_jpg_not_png : ∀ (r : List Char),
    (['g','p','j','.'].isPrefixOf r) = true → (['g','n','p','.'].isPrefixOf r) = false := by
  intro r h
  rcases r with _ | ⟨a, _ | ⟨b, rs⟩⟩ <;> simp_all [List.isPrefixOf]
  rintro rfl rfl
  exact absurd h.2.1 (by decide)

theorem rev_png_not_jpg : ∀ (r : List Char),
    (['g','n','p','.'].isPrefixOf r) = true → (['g','p','j','.'].isPrefixOf r) = false := by
  intro r h
  rcases r with _ | ⟨a, _ | ⟨b, rs⟩⟩ <;> simp_all [List.isPrefixOf]
  rintro rfl rfl
  exact absurd h.2.1 (by decide)

theorem jpg_not_png {f : String} (h : strEnds f ".jpg" = true) :
    strEnds f ".png" = false := by
  have hj : ".jpg".data.reverse = ['g','p','j','.'] := by decide
  have hp : ".png".data.reverse = ['g','n','p','.'] := by decide
  unfold strEnds at h ⊢
  rw [hj] at h
  rw [hp]
  exact rev_jpg_not_png _ h

theorem png_not_jpg {f : String} (h : strEnds f ".png" = true) :
    strEnds f ".jpg" = false := by
  have hj : ".jpg".data.reverse = ['g','p','j','.'] := by decide
  have hp : ".png".data.reverse = ['g','n','p','.'] := by decide
  unfold strEnds at h ⊢
  rw [hp] at h
  rw [hj]
  exact rev_png_not_jpg _ h

theorem contains_filter_of_mem (l : List String) (p : String → Bool) (f : String)
    (hf : f ∈ l) : (l.filter p).contains f = p f := by
  cases hp : p f
  · have hnot : f ∉ l.filter p := by
      intro hc
      have := (List.mem_filter.mp hc).2
      rw [hp] at this
      cases this
    simp [List.elem_iff, hnot]
  · have hmem : f ∈ l.filter p := List.mem_filter.mpr ⟨hf, hp⟩
    simp [List.elem_iff, hmem]

theorem length_filter_split (p q r : String → Bool)
    (hpq : ∀ f, p f = true → q f = false) (l : List String) :
    (l.filter (fun f => (p f || q f) && r f)).length
      = (l.filter (fun f => p f && r f)).length
        + (l.filter (fun f => q f && r f)).length := by
  induction l with
  | nil => rfl
  | cons a t ih =>
    have hpq' := hpq a
    cases hp2 : p a <;> cases hq2 : q a <;> cases hr2 : r a <;>
      simp_all [List.filter_cons] <;> omega

theorem filter_comp (l : List String) (p q : String → Bool) :
    (l.filter p).filter q = l.filter (fun f => p f && q f) := by
  induction l with
  | nil => rfl
  | cons a t ih => cases hp : p a <;> cases hq : q a <;> simp [List.filter_cons, hp, hq, ih]

theorem length_filter_or (p q : String → Bool)
    (hpq : ∀ f, p f = true → q f = false) (l : List String) :
    (l.filter (fun f => p f || q f)).length
      = (l.filter p).length + (l.filter q).length := by
  induction l with
  | nil => rfl
  | cons a t ih =>
    have hpq' := hpq a
    cases hp2 : p a <;> cases hq2 : q a <;> simp_all [List.filter_cons] <;> omega

theorem C9_sweep_characterization (iconPaths : List (Option String)) (files : List String) :
    cleanupOrphanedCache (.ok iconPaths) (some files)
      = (((files.filter (fun f =>
             isImageFile f && !(referencedFiles iconPaths).contains f)).length,
          (files.filter isImageFile).length),
         some (files.filter (fun f =>
           !(isImageFile f && !(referencedFiles iconPaths).contains f)))) := by
  have hjp : ∀ f : String, strEnds f ".jpg" = true → strEnds f ".png" = false :=
    fun f h => jpg_not_png h
  have h1 : (files.filter (fun f => strEnds f ".jpg")).filter
        (fun f => !(referencedFiles iconPaths).contains f)
      = files.filter (fun f =>
          strEnds f ".jpg" && !(referencedFiles iconPaths).contains f) :=
    filter_comp files _ _
  have h2 : files.filter (fun f =>
        !((files.filter (fun f =>
            strEnds f ".jpg" && !(referencedFiles iconPaths).contains f)).contains f))
      = files.filter (fun f =>
          !(strEnds f ".jpg" && !(referencedFiles iconPaths).contains f)) :=
    List.filter_congr (fun f hf => by rw [contains_filter_of_mem files _ f hf])
  have h3 : (files.filter (fun f =>
        !(strEnds f ".jpg" && !(referencedFiles iconPaths).contains f))).filter
          (fun f => strEnds f ".png")
      = files.filter (fun f => strEnds f ".png") := by
    rw [filter_comp]
    refine List.filter_congr (fun f _ => ?_)
    cases hpg : strEnds f ".png"
    · simp
    · simp [png_not_jpg hpg]
  have h4 : (files.filter (fun f => strEnds f ".png")).filter
        (fun f => !(referencedFiles iconPaths).contains f)
      = files.filter (fun f =>
          strEnds f ".png" && !(referencedFiles iconPaths).contains f) :=
    filter_comp files _ _
  have h5 : (files.filter (fun f =>
        !(strEnds f ".jpg" && !(referencedFiles iconPaths).contains f))).filter
          (fun f =>
            !((files.filter (fun f =>
                strEnds f ".png" && !(referencedFiles iconPaths).contains f)).contains f))
      = files.filter (fun f =>
          !(isImageFile f && !(referencedFiles iconPaths).contains f)) := by
    rw [filter_comp]
    refine List.filter_congr (fun f hf => ?_)
    rw [contains_filter_of_mem files _ f hf]
    cases hjpg : strEnds f ".jpg" <;> cases hpng : strEnds f ".png" <;>
      cases hog : (referencedFiles iconPaths).contains f <;>
      simp [isImageFile, hjpg, hpng, hog]
  have h7 : (files.filter (fun f =>
        isImageFile f && !(referencedFiles iconPaths).contains f)).length
      = (files.filter (fun f =>
          strEnds f ".jpg" && !(referencedFiles iconPaths).contains f)).length
        + (files.filter (fun f =>
            strEnds f ".png" && !(referencedFiles iconPaths).contains f)).length := by
    have := length_filter_split (fun f => strEnds f ".jpg") (fun f => strEnds f ".png")
      (fun f => !(referencedFiles iconPaths).contains f) hjp files
    simpa [isImageFile] using this
  have h8 : (files.filter isImageFile).length
      = (files.filter (fun f => strEnds f ".jpg")).length
        + (files.filter (fun f => strEnds f ".png")).length := by
    have := length_filter_or (fun f => strEnds f ".jpg") (fun f => strEnds f ".png") hjp files
    simpa [isImageFile] using this
  simp only [cleanupOrphanedCache, h1, h2, h3, h4, h5, h7, h8]

/-- C9: with a readable inventory and an existing cache directory,
`cleanup_orphaned_cache` deletes exactly the `.jpg` / `.png` files whose
name is referenced by no inventory entry's `icon_path`, leaves every
referenced file in place, and returns `(removed, scanned)` where `removed`
counts the deleted files and `scanned` all image files. -/
theorem C9_cleanup_orphaned_cache (iconPaths : List (Option String)) (files : List String) :
    (cleanupOrphanedCache (.ok iconPaths) (some files)
      = (((files.filter (fun f =>
             isImageFile f && !(referencedFiles iconPaths).contains f)).length,
          (files.filter isImageFile).length),
         some (files.filter (fun f =>
           !(isImageFile f && !(referencedFiles iconPaths).contains f))))) ∧
    (∀ f ∈ files, (referencedFiles iconPaths).contains f = true →
      f ∈ files.filter (fun f =>
        !(isImageFile f && !(referencedFiles iconPaths).contains f))) := by
  refine ⟨C9_sweep_characterization iconPaths files, ?_⟩
  intro f hf hc
  have hmem : f ∈ referencedFiles iconPaths := List.elem_iff.mp hc
  exact List.mem_filter.mpr ⟨hf, by simp [hc, hmem]⟩

/-- Inventory for the spec's sweep scenario: seven referenced cache files. -/
def demoIconPaths : List (Option String) :=
  [some "cache/icons/a1.jpg", some "cache/icons/a2.jpg", some "cache/icons/a3.jpg",
   some "cache/icons/a4.jpg", some "cache/icons/a5.png", some "cache/icons/a6.jpg",
   some "cache/icons/a7.jpg", none]

/-- Cache directory for the spec's sweep scenario: ten image files, three of
them unreferenced. -/
def demoFiles : List String :=
  ["a1.jpg", "a2.jpg", "a3.jpg", "a4.jpg", "a5.png", "a6.jpg", "a7.jpg",
   "orphan1.jpg", "orphan2.png", "orphan3.jpg"]

/-- C9 witness: on the ten-file directory with three orphans the sweep
reports `(3, 10)`, keeps exactly the seven referenced files, and a
referenced file survives. -/
theorem C9_cleanup_orphaned_cache_witness :
    cleanupOrphanedCache (.ok demoIconPaths) (some demoFiles)
      = ((3, 10), some ["a1.jpg", "a2.jpg", "a3.jpg", "a4.jpg", "a5.png",
           "a6.jpg", "a7.jpg"]) ∧
    "a1.jpg" ∈ demoFiles.filter (fun f =>
      !(isImageFile f && !(referencedFiles demoIconPaths).contains f)) := by
  have h := C9_cleanup_orphaned_cache demoIconPaths demoFiles
  exact ⟨h.1.trans (by decide), h.2 "a1.jpg" (by decide) (by decide)⟩

/-! ## Claim C10 -/

/-- C10: when `library.json` does not exist, or opening or parsing it
raises, `cleanup_orphaned_cache` deletes nothing and returns `(0, 0)`: the
cache directory is unchanged whenever the referenced set cannot be
computed. -/
theorem C10_unreadable_inventory_is_noop (dir : Option (List String)) :
    cleanupOrphanedCache .missing dir = ((0, 0), dir) ∧
    cleanupOrphanedCache .parseError dir = ((0, 0), dir) :=
  ⟨rfl, rfl⟩
